import Mathlib

/-!
Verification of the action execution engine of `nix-installer`
(`src/actions/base/setup_default_profile.rs` and
`src/actions/meta/configure_shell_profile.rs`), shallowly embedded in Lean.

Host effects (filesystem globbing, external process invocation, environment
variable mutation) are modelled explicitly: `execute`/`revert` take a `Host`
oracle describing what the effectful capabilities would return, and return,
alongside the Rust function result and the updated action value, the trace of
external commands invoked and environment operations performed.
-/

namespace NixInstaller

/-- Per-action completion status, as referenced by the source
(`ActionState::Uncompleted`, `ActionState::Progress`, `ActionState::Completed`;
the design documentation calls the middle state "InProgress"). -/
inductive ActionState where
  | Uncompleted
  | Progress
  | Completed
deriving DecidableEq, Inhabited

/-- An external process invocation: program path, arguments, and explicit
environment-variable overrides applied to the command
(`tokio::process::Command` with `.arg(..)` and `.env(..)`). -/
structure Cmd where
  program : String
  args : List String
  envOverrides : List (String × String)
deriving DecidableEq, Inhabited

/-- A process-wide environment mutation performed during `execute`/`revert`
(`set_env` / `std::env::remove_var`). -/
inductive EnvOp where
  | set (key : String) (value : String)
  | remove (key : String)
deriving DecidableEq, Inhabited

/-- Oracle for the host-facing capabilities a leaf action consumes:
`glob pattern` is the result of `glob::glob(pattern)` (a pattern error, or the
lazy sequence of per-entry results, each a path or a per-entry read error);
`runCommand c` is the result of `execute_command` on `c`. -/
structure Host where
  glob : String → Except String (List (Except String String))
  runCommand : Cmd → Except String Unit

/-- `Path::join` on the string paths the source manipulates. -/
def pathJoin (a b : String) : String := a ++ "/" ++ b

/-- `SetupDefaultProfileError` from `setup_default_profile.rs`: glob pattern
error, per-entry glob error, missing-package discovery error, and external
command failure. Payloads of the wrapped foreign error types are modelled as
their display strings. -/
inductive SetupDefaultProfileError where
  | GlobPatternError (e : String)
  | GlobGlobError (e : String)
  | NoNssCacert
  | Command (e : String)
deriving DecidableEq, Inhabited

/-- The `SetupDefaultProfile` leaf action: its channel list and action state. -/
structure SetupDefaultProfile where
  channels : List String
  action_state : ActionState
deriving DecidableEq, Inhabited

/-- `SetupDefaultProfile::plan`: constructs the action in `Uncompleted` state,
storing the given channels; always `Ok`. -/
def SetupDefaultProfile.plan (channels : List String) :
    Except SetupDefaultProfileError SetupDefaultProfile :=
  Except.ok { channels := channels, action_state := ActionState.Uncompleted }

/-- The `for entry in glob(..)` loops of `SetupDefaultProfile::execute`: take
the first `Ok` entry, skipping (`continue`) per-entry `Err` results. -/
def firstOkEntry : List (Except String String) → Option String
  | [] => none
  | Except.ok path :: _ => some path
  | Except.error _ :: rest => firstOkEntry rest

/-- The `NIX_SSL_CERT_FILE` value used by `SetupDefaultProfile::execute`. -/
def caBundlePath : String := "/nix/var/nix/profiles/default/etc/ssl/certs/ca-bundle.crt"

/-- `SetupDefaultProfile::execute`, returning the Rust result, the updated
action, the external commands invoked (in order), and the environment
operations performed (in order). Mirrors the source: short-circuit when
`Completed`; glob for a nix package (zero matches yield `NoNssCacert` — the
source comment flags this reused variant as wrong); `nix-env -i` it; glob for
an nss-cacert package (zero matches yield `NoNssCacert`); `nix-env -i` it; set
`NIX_SSL_CERT_FILE`; if channels are nonempty, run `nix-channel --update`. -/
def SetupDefaultProfile.execute (self : SetupDefaultProfile) (host : Host) :
    Except SetupDefaultProfileError Unit × SetupDefaultProfile × List Cmd × List EnvOp :=
  if self.action_state = ActionState.Completed then
    (Except.ok (), self, [], [])
  else
    match host.glob "/nix/store/*-nix-*" with
    | Except.error e => (Except.error (SetupDefaultProfileError.GlobPatternError e), self, [], [])
    | Except.ok entries =>
      match firstOkEntry entries with
      | none => (Except.error SetupDefaultProfileError.NoNssCacert, self, [], [])
      | some nix_pkg =>
        let cmd1 : Cmd := ⟨pathJoin nix_pkg "bin/nix-env", ["-i", nix_pkg], []⟩
        match host.runCommand cmd1 with
        | Except.error e =>
          (Except.error (SetupDefaultProfileError.Command e), self, [cmd1], [])
        | Except.ok _ =>
          match host.glob "/nix/store/*-nss-cacert-*" with
          | Except.error e =>
            (Except.error (SetupDefaultProfileError.GlobPatternError e), self, [cmd1], [])
          | Except.ok entries2 =>
            match firstOkEntry entries2 with
            | none => (Except.error SetupDefaultProfileError.NoNssCacert, self, [cmd1], [])
            | some nss_ca_cert_pkg =>
              let cmd2 : Cmd := ⟨pathJoin nix_pkg "bin/nix-env", ["-i", nss_ca_cert_pkg], []⟩
              match host.runCommand cmd2 with
              | Except.error e =>
                (Except.error (SetupDefaultProfileError.Command e), self, [cmd1, cmd2], [])
              | Except.ok _ =>
                let envOps := [EnvOp.set "NIX_SSL_CERT_FILE" caBundlePath]
                if self.channels.isEmpty then
                  (Except.ok (), { self with action_state := ActionState.Completed },
                    [cmd1, cmd2], envOps)
                else
                  let cmd3 : Cmd := ⟨pathJoin nix_pkg "bin/nix-channel",
                    "--update" :: self.channels, [("NIX_SSL_CERT_FILE", caBundlePath)]⟩
                  match host.runCommand cmd3 with
                  | Except.error e =>
                    (Except.error (SetupDefaultProfileError.Command e), self,
                      [cmd1, cmd2, cmd3], envOps)
                  | Except.ok _ =>
                    (Except.ok (), { self with action_state := ActionState.Completed },
                      [cmd1, cmd2, cmd3], envOps)

/-- `SetupDefaultProfile::revert`: short-circuit when `Uncompleted`; otherwise
remove `NIX_SSL_CERT_FILE` and — exactly as the source does on its success
path (line 167 of `setup_default_profile.rs`) — set the action state to
`Completed`. -/
def SetupDefaultProfile.revert (self : SetupDefaultProfile) :
    Except SetupDefaultProfileError Unit × SetupDefaultProfile × List EnvOp :=
  if self.action_state = ActionState.Uncompleted then
    (Except.ok (), self, [])
  else
    (Except.ok (), { self with action_state := ActionState.Completed },
      [EnvOp.remove "NIX_SSL_CERT_FILE"])

/-- Modelled from the spec: `CreateOrAppendFileError`, the error enum owned by
the `CreateOrAppendFile` leaf action (its source file,
`src/actions/base/create_or_append_file.rs`, is not part of the shown
source). The composite never inspects the payload, so it is modelled as an
opaque message. -/
structure CreateOrAppendFileError where
  message : String
deriving DecidableEq, Inhabited

/-- Modelled from the spec: the `CreateOrAppendFile` leaf action (its source
file is not part of the shown source). Its fields mirror the call
`CreateOrAppendFile::plan(path, None, None, 0o0644, buf)` plus the
`ActionState` every action carries. -/
structure CreateOrAppendFile where
  path : String
  user : Option String
  group : Option String
  mode : Nat
  buf : String
  action_state : ActionState
deriving DecidableEq, Inhabited

/-- Modelled from the spec: `CreateOrAppendFile::plan` performs read-only
discovery only and constructs the child action in `Uncompleted` state. -/
def CreateOrAppendFile.plan (path : String) (user group : Option String) (mode : Nat)
    (buf : String) : Except CreateOrAppendFileError CreateOrAppendFile :=
  Except.ok { path := path, user := user, group := group, mode := mode, buf := buf,
              action_state := ActionState.Uncompleted }

/-- A `tokio::task::JoinError` (the spawned task crashed at the
infrastructure level), modelled as its display string. -/
structure JoinError where
  message : String
deriving DecidableEq, Inhabited

/-- `ConfigureShellProfileError` from `configure_shell_profile.rs`: a single
child error, an aggregate of several child errors, or a task-join failure. -/
inductive ConfigureShellProfileError where
  | CreateOrAppendFile (e : CreateOrAppendFileError)
  | MultipleCreateOrAppendFile (es : List CreateOrAppendFileError)
  | Join (e : JoinError)
deriving DecidableEq, Inhabited

/-- The `ConfigureShellProfile` composite action: its ordered child sequence
and action state. -/
structure ConfigureShellProfile where
  create_or_append_files : List CreateOrAppendFile
  action_state : ActionState
deriving DecidableEq, Inhabited

/-- `PROFILE_TARGETS` from `configure_shell_profile.rs`. -/
def PROFILE_TARGETS : List String :=
  ["/etc/bashrc", "/etc/profile.d/nix.sh", "/etc/zshrc", "/etc/bash.bashrc", "/etc/zsh/zshrc"]

/-- `PROFILE_NIX_FILE` from `configure_shell_profile.rs`. -/
def PROFILE_NIX_FILE : String := "/nix/var/nix/profiles/default/etc/profile.d/nix-daemon.sh"

/-- A single-quote character as a string (kept out of string literals). -/
def singleQuote : String := String.singleton (Char.ofNat 39)

/-- The stanza `ConfigureShellProfile::plan` appends to each profile file.
Mirrors the Rust `format!` literal, including the trailing
newline-plus-indentation produced by the continuation line that is not
backslash-escaped in the source. -/
def profileBuf : String :=
  "\n# Nix\nif [ -e " ++ singleQuote ++ PROFILE_NIX_FILE ++ singleQuote ++ " ]; then\n. "
    ++ singleQuote ++ PROFILE_NIX_FILE ++ singleQuote ++ "\nfi\n# End Nix\n\n            \n"

/-- The loop body of `ConfigureShellProfile::plan` over a list of candidate
targets, parameterised by the host predicate `Path::exists`: targets whose
path does not exist are skipped with a trace message; for the rest a
`CreateOrAppendFile` child is planned, its error propagated via `?`. -/
def planChildren (pathExists : String → Bool) :
    List String → Except CreateOrAppendFileError (List CreateOrAppendFile)
  | [] => Except.ok []
  | target :: rest =>
    if pathExists target then
      match CreateOrAppendFile.plan target none none 0o0644 profileBuf with
      | Except.error e => Except.error e
      | Except.ok child =>
        match planChildren pathExists rest with
        | Except.error e => Except.error e
        | Except.ok children => Except.ok (child :: children)
    else
      planChildren pathExists rest

/-- `ConfigureShellProfile::plan`, parameterised by the host `Path::exists`
predicate: one child per existing profile target, in `PROFILE_TARGETS` order,
and the composite starts `Uncompleted`. -/
def ConfigureShellProfile.plan (pathExists : String → Bool) :
    Except ConfigureShellProfileError ConfigureShellProfile :=
  match planChildren pathExists PROFILE_TARGETS with
  | Except.error e => Except.error (ConfigureShellProfileError.CreateOrAppendFile e)
  | Except.ok children =>
    Except.ok { create_or_append_files := children, action_state := ActionState.Uncompleted }

/-- The result of awaiting one spawned child task in the `JoinSet`: either the
task joined and yields the child's `Result` (the updated child on success),
or the task itself crashed (`JoinError`). -/
inductive TaskResult where
  | joined (r : Except CreateOrAppendFileError CreateOrAppendFile)
  | panicked (e : JoinError)

/-- State after the `while let Some(result) = set.join_next().await` loop:
the (partially) written-back child sequence, the collected ordinary child
errors in collection order, and the join failure that aborted the loop, if
any. -/
structure JoinOutcome where
  files : List CreateOrAppendFile
  errors : List CreateOrAppendFileError
  fatal : Option JoinError
deriving Inhabited

/-- The join loop of `ConfigureShellProfile::execute`/`revert`: `results i`
is what awaiting the task spawned for child index `i` yields, and `order` is
the completion order of the tasks. A successful child is written back at its
original index; an ordinary child error is pushed onto `errors`; a join
failure aborts the loop immediately. -/
def joinLoop (results : Nat → TaskResult) :
    List Nat → List CreateOrAppendFile → List CreateOrAppendFileError → JoinOutcome
  | [], files, errors => { files := files, errors := errors, fatal := none }
  | idx :: rest, files, errors =>
    match results idx with
    | TaskResult.joined (Except.ok file) => joinLoop results rest (files.set idx file) errors
    | TaskResult.joined (Except.error e) => joinLoop results rest files (errors ++ [e])
    | TaskResult.panicked e => { files := files, errors := errors, fatal := some e }

/-- `ConfigureShellProfile::execute`, with the spawned tasks' outcomes given
by `results` and their completion order by `order`: short-circuit when
`Completed`; set self to `Progress`; run the join loop; on a join failure
return the `Join` error; with exactly one collected error return the
single-cause variant; with two or more return `MultipleCreateOrAppendFile`;
with none, finalize to `Completed`. -/
def ConfigureShellProfile.executeWith (self : ConfigureShellProfile)
    (results : Nat → TaskResult) (order : List Nat) :
    Except ConfigureShellProfileError Unit × ConfigureShellProfile :=
  if self.action_state = ActionState.Completed then
    (Except.ok (), self)
  else
    let j := joinLoop results order self.create_or_append_files []
    match j.fatal with
    | some e =>
      (Except.error (ConfigureShellProfileError.Join e),
        { create_or_append_files := j.files, action_state := ActionState.Progress })
    | none =>
      match j.errors with
      | [] =>
        (Except.ok (),
          { create_or_append_files := j.files, action_state := ActionState.Completed })
      | [e] =>
        (Except.error (ConfigureShellProfileError.CreateOrAppendFile e),
          { create_or_append_files := j.files, action_state := ActionState.Progress })
      | e1 :: e2 :: rest =>
        (Except.error (ConfigureShellProfileError.MultipleCreateOrAppendFile (e1 :: e2 :: rest)),
          { create_or_append_files := j.files, action_state := ActionState.Progress })

/-- `ConfigureShellProfile::revert`: identical orchestration to `executeWith`
(the per-child operation inside the spawned task differs), with short-circuit
state `Uncompleted` and terminal state `Uncompleted`. -/
def ConfigureShellProfile.revertWith (self : ConfigureShellProfile)
    (results : Nat → TaskResult) (order : List Nat) :
    Except ConfigureShellProfileError Unit × ConfigureShellProfile :=
  if self.action_state = ActionState.Uncompleted then
    (Except.ok (), self)
  else
    let j := joinLoop results order self.create_or_append_files []
    match j.fatal with
    | some e =>
      (Except.error (ConfigureShellProfileError.Join e),
        { create_or_append_files := j.files, action_state := ActionState.Progress })
    | none =>
      match j.errors with
      | [] =>
        (Except.ok (),
          { create_or_append_files := j.files, action_state := ActionState.Uncompleted })
      | [e] =>
        (Except.error (ConfigureShellProfileError.CreateOrAppendFile e),
          { create_or_append_files := j.files, action_state := ActionState.Progress })
      | e1 :: e2 :: rest =>
        (Except.error (ConfigureShellProfileError.MultipleCreateOrAppendFile (e1 :: e2 :: rest)),
          { create_or_append_files := j.files, action_state := ActionState.Progress })

/-! Concrete host oracles and sample values used by the witness theorems. -/

/-- A host whose store is empty (every glob matches zero entries) and on
which every external command would succeed. -/
def hostEmptyStore : Host :=
  { glob := fun _ => Except.ok [], runCommand := fun _ => Except.ok () }

/-- A host on which the nix-package glob matches one entry, the
nss-cacert-package glob matches zero entries, and every command succeeds. -/
def hostNixOnly : Host :=
  { glob := fun pattern =>
      if pattern = "/nix/store/*-nix-*" then
        Except.ok [Except.ok "/nix/store/abcd-nix-2.11.0"]
      else
        Except.ok [],
    runCommand := fun _ => Except.ok () }

/-- A small concrete `CreateOrAppendFile` child used by witnesses. -/
def sampleChild (p : String) : CreateOrAppendFile :=
  { path := p, user := none, group := none, mode := 0o0644, buf := "# Nix\n",
    action_state := ActionState.Uncompleted }

/-! ## C9 — `SetupDefaultProfile::plan` is infallible -/

/-- C9: `SetupDefaultProfile::plan(channels)` always returns `Ok`, with
`action_state = Uncompleted` and the given channels stored unchanged; it
consults no host capability (the embedding takes no `Host`) and performs no
effect. -/
theorem c9_plan_infallible (channels : List String) :
    SetupDefaultProfile.plan channels
      = Except.ok { channels := channels, action_state := ActionState.Uncompleted } :=
  rfl

/-! ## C4 — idempotent execute short-circuit -/

/-- C4: an action in state `Completed` has `execute()` return success
immediately: the leaf returns with itself unchanged, zero commands invoked
and zero environment operations; the composite returns with itself unchanged
whatever its children's tasks would do (so no child is executed). -/
theorem c4_idempotent_execute (self : SetupDefaultProfile) (host : Host)
    (cself : ConfigureShellProfile) (results : Nat → TaskResult) (order : List Nat)
    (hleaf : self.action_state = ActionState.Completed)
    (hcomp : cself.action_state = ActionState.Completed) :
    self.execute host = (Except.ok (), self, [], []) ∧
    cself.executeWith results order = (Except.ok (), cself) := by
  constructor
  · simp [SetupDefaultProfile.execute, hleaf]
  · simp [ConfigureShellProfile.executeWith, hcomp]

/-- Witness for C4 at concrete completed actions. -/
theorem c4_idempotent_execute_witness :
    SetupDefaultProfile.execute
        { channels := ["nixpkgs"], action_state := ActionState.Completed } hostEmptyStore
      = (Except.ok (),
         { channels := ["nixpkgs"], action_state := ActionState.Completed }, [], []) ∧
    ConfigureShellProfile.executeWith
        { create_or_append_files := [sampleChild "/etc/bashrc"],
          action_state := ActionState.Completed }
        (fun _ => TaskResult.panicked { message := "crashed" }) [0]
      = (Except.ok (),
         { create_or_append_files := [sampleChild "/etc/bashrc"],
           action_state := ActionState.Completed }) :=
  c4_idempotent_execute _ _ _ _ _ rfl rfl

/-! ## C5 — idempotent revert short-circuit -/

/-- C5: an action in state `Uncompleted` has `revert()` return success
immediately: the leaf returns with itself unchanged and no environment
operation (the early return precedes `remove_var`); the composite returns
with itself unchanged whatever its children's tasks would do. -/
theorem c5_idempotent_revert (self : SetupDefaultProfile)
    (cself : ConfigureShellProfile) (results : Nat → TaskResult) (order : List Nat)
    (hleaf : self.action_state = ActionState.Uncompleted)
    (hcomp : cself.action_state = ActionState.Uncompleted) :
    self.revert = (Except.ok (), self, []) ∧
    cself.revertWith results order = (Except.ok (), cself) := by
  constructor
  · simp [SetupDefaultProfile.revert, hleaf]
  · simp [ConfigureShellProfile.revertWith, hcomp]

/-- Witness for C5 at concrete uncompleted actions. -/
theorem c5_idempotent_revert_witness :
    SetupDefaultProfile.revert
        { channels := ["nixpkgs"], action_state := ActionState.Uncompleted }
      = (Except.ok (),
         { channels := ["nixpkgs"], action_state := ActionState.Uncompleted }, []) ∧
    ConfigureShellProfile.revertWith
        { create_or_append_files := [sampleChild "/etc/bashrc"],
          action_state := ActionState.Uncompleted }
        (fun _ => TaskResult.panicked { message := "crashed" }) [0]
      = (Except.ok (),
         { create_or_append_files := [sampleChild "/etc/bashrc"],
           action_state := ActionState.Uncompleted }) :=
  c5_idempotent_revert _ _ _ _ rfl rfl

/-! ## C1 — revert finalizes to `Uncompleted` -/

/-- C1 counterexample, exhibiting the slip in the leaf's revert: on a
`SetupDefaultProfile` in state `Completed`, `revert()` succeeds (removing the
environment variable) but sets the action state to `Completed`, not
`Uncompleted` — `setup_default_profile.rs` line 167 writes
`ActionState::Completed` on the success path of `revert`. -/
theorem c1_leaf_revert_leaves_completed :
    SetupDefaultProfile.revert { channels := [], action_state := ActionState.Completed }
      = (Except.ok (), { channels := [], action_state := ActionState.Completed },
         [EnvOp.remove "NIX_SSL_CERT_FILE"]) :=
  rfl

/-! ## C8 — zero-match discovery aborts before any process invocation -/

/-- C8: when the nix-package glob `/nix/store/*-nix-*` matches zero entries,
`SetupDefaultProfile::execute` returns the `NoNssCacert` discovery error with
the action unchanged, zero external commands invoked and zero environment
operations; and that error value is distinct from every `Command` (external
command failure) error value. -/
theorem c8_zero_match_discovery (self : SetupDefaultProfile) (host : Host)
    (hstate : self.action_state ≠ ActionState.Completed)
    (hglob : host.glob "/nix/store/*-nix-*" = Except.ok []) :
    self.execute host = (Except.error SetupDefaultProfileError.NoNssCacert, self, [], []) ∧
    ∀ e, SetupDefaultProfileError.NoNssCacert ≠ SetupDefaultProfileError.Command e := by
  constructor
  · simp [SetupDefaultProfile.execute, hstate, hglob, firstOkEntry]
  · intro e h
    cases h

/-- Witness for C8 on the empty-store host. -/
theorem c8_zero_match_discovery_witness :
    SetupDefaultProfile.execute
        { channels := [], action_state := ActionState.Uncompleted } hostEmptyStore
      = (Except.error SetupDefaultProfileError.NoNssCacert,
         { channels := [], action_state := ActionState.Uncompleted }, [], []) ∧
    ∀ e, SetupDefaultProfileError.NoNssCacert ≠ SetupDefaultProfileError.Command e :=
  c8_zero_match_discovery _ _ (by decide) rfl

/-! ## C10 — error-variant conflation and the unreachable `GlobGlobError` -/

/-- C10: (1) the zero-match case of the nix-package glob and (2) the
zero-match case of the nss-cacert-package glob both make `execute` return the
very same `NoNssCacert` error value, so the two missing-package cases are
indistinguishable from the error; (3) per-entry glob read errors are skipped
by the entry loop; and (4) `execute` never returns the `GlobGlobError`
variant, on any host. -/
theorem c10_conflated_errors :
    (∀ (self : SetupDefaultProfile) (host : Host) entries,
        self.action_state ≠ ActionState.Completed →
        host.glob "/nix/store/*-nix-*" = Except.ok entries →
        firstOkEntry entries = none →
        (self.execute host).1 = Except.error SetupDefaultProfileError.NoNssCacert) ∧
    (∀ (self : SetupDefaultProfile) (host : Host) entries nixPkg entries2,
        self.action_state ≠ ActionState.Completed →
        host.glob "/nix/store/*-nix-*" = Except.ok entries →
        firstOkEntry entries = some nixPkg →
        host.runCommand ⟨pathJoin nixPkg "bin/nix-env", ["-i", nixPkg], []⟩ = Except.ok () →
        host.glob "/nix/store/*-nss-cacert-*" = Except.ok entries2 →
        firstOkEntry entries2 = none →
        (self.execute host).1 = Except.error SetupDefaultProfileError.NoNssCacert) ∧
    (∀ g rest, firstOkEntry (Except.error g :: rest) = firstOkEntry rest) ∧
    (∀ (self : SetupDefaultProfile) (host : Host) e,
        (self.execute host).1 ≠ Except.error (SetupDefaultProfileError.GlobGlobError e)) := by
  refine ⟨?_, ?_, ?_, ?_⟩
  · intro self host entries hstate hglob hnone
    simp [SetupDefaultProfile.execute, hstate, hglob, hnone]
  · intro self host entries nixPkg entries2 hstate hglob hsome hcmd hglob2 hnone2
    simp [SetupDefaultProfile.execute, hstate, hglob, hsome, hcmd, hglob2, hnone2]
  · intro g rest
    rfl
  · intro self host e
    by_cases hstate : self.action_state = ActionState.Completed
    · simp [SetupDefaultProfile.execute, hstate]
    · rcases hg1 : host.glob "/nix/store/*-nix-*" with e1 | entries1
      · simp [SetupDefaultProfile.execute, hstate, hg1]
      · rcases hf1 : firstOkEntry entries1 with _ | nixPkg
        · simp [SetupDefaultProfile.execute, hstate, hg1, hf1]
        · rcases hc1 : host.runCommand
              ⟨pathJoin nixPkg "bin/nix-env", ["-i", nixPkg], []⟩ with ce1 | u1
          · simp [SetupDefaultProfile.execute, hstate, hg1, hf1, hc1]
          · rcases hg2 : host.glob "/nix/store/*-nss-cacert-*" with e2 | entries2
            · simp [SetupDefaultProfile.execute, hstate, hg1, hf1, hc1, hg2]
            · rcases hf2 : firstOkEntry entries2 with _ | nssPkg
              · simp [SetupDefaultProfile.execute, hstate, hg1, hf1, hc1, hg2, hf2]
              · rcases hc2 : host.runCommand
                    ⟨pathJoin nixPkg "bin/nix-env", ["-i", nssPkg], []⟩ with ce2 | u2
                · simp [SetupDefaultProfile.execute, hstate, hg1, hf1, hc1, hg2, hf2, hc2]
                · by_cases hch : self.channels.isEmpty
                  · simp [SetupDefaultProfile.execute, hstate, hg1, hf1, hc1, hg2, hf2,
                      hc2, hch]
                  · rcases hc3 : host.runCommand
                        ⟨pathJoin nixPkg "bin/nix-channel", "--update" :: self.channels,
                         [("NIX_SSL_CERT_FILE", caBundlePath)]⟩ with ce3 | u3
                    · simp [SetupDefaultProfile.execute, hstate, hg1, hf1, hc1, hg2, hf2,
                        hc2, hch, hc3]
                    · simp [SetupDefaultProfile.execute, hstate, hg1, hf1, hc1, hg2, hf2,
                        hc2, hch, hc3]

/-- Witness for C10: the empty-store host hits the first zero-match case and
the nix-only host hits the second; both calls return `NoNssCacert`. -/
theorem c10_conflated_errors_witness :
    (SetupDefaultProfile.execute
        { channels := [], action_state := ActionState.Uncompleted } hostEmptyStore).1
      = Except.error SetupDefaultProfileError.NoNssCacert ∧
    (SetupDefaultProfile.execute
        { channels := [], action_state := ActionState.Uncompleted } hostNixOnly).1
      = Except.error SetupDefaultProfileError.NoNssCacert :=
  ⟨c10_conflated_errors.1 _ _ [] (by decide) rfl rfl,
   c10_conflated_errors.2.1 _ _ [Except.ok "/nix/store/abcd-nix-2.11.0"]
     "/nix/store/abcd-nix-2.11.0" [] (by decide) rfl rfl rfl rfl rfl⟩

/-! ## C2 — error cardinality mapping of the composite -/

/-- C2: in a composite `execute()` or `revert()` where no spawned task fails
at the infrastructure level, if the join loop collected exactly one child
error the returned error is the single-cause `CreateOrAppendFile` variant
wrapping exactly that error, and if it collected two or more the returned
error is `MultipleCreateOrAppendFile` holding exactly the collected list, in
collection order, unchanged. -/
theorem c2_error_cardinality (self : ConfigureShellProfile)
    (results : Nat → TaskResult) (order : List Nat)
    (hfatal : (joinLoop results order self.create_or_append_files []).fatal = none) :
    (self.action_state ≠ ActionState.Completed →
      (∀ e, (joinLoop results order self.create_or_append_files []).errors = [e] →
        (self.executeWith results order).1
          = Except.error (ConfigureShellProfileError.CreateOrAppendFile e)) ∧
      (∀ e1 e2 rest,
        (joinLoop results order self.create_or_append_files []).errors = e1 :: e2 :: rest →
        (self.executeWith results order).1
          = Except.error
              (ConfigureShellProfileError.MultipleCreateOrAppendFile (e1 :: e2 :: rest)))) ∧
    (self.action_state ≠ ActionState.Uncompleted →
      (∀ e, (joinLoop results order self.create_or_append_files []).errors = [e] →
        (self.revertWith results order).1
          = Except.error (ConfigureShellProfileError.CreateOrAppendFile e)) ∧
      (∀ e1 e2 rest,
        (joinLoop results order self.create_or_append_files []).errors = e1 :: e2 :: rest →
        (self.revertWith results order).1
          = Except.error
              (ConfigureShellProfileError.MultipleCreateOrAppendFile (e1 :: e2 :: rest)))) := by
  constructor
  · intro hstate
    constructor
    · intro e he
      simp [ConfigureShellProfile.executeWith, hstate, hfatal, he]
    · intro e1 e2 rest he
      simp [ConfigureShellProfile.executeWith, hstate, hfatal, he]
  · intro hstate
    constructor
    · intro e he
      simp [ConfigureShellProfile.revertWith, hstate, hfatal, he]
    · intro e1 e2 rest he
      simp [ConfigureShellProfile.revertWith, hstate, hfatal, he]

/-- Witness for C2: a two-child composite in which both children fail yields
the aggregate variant with both errors in collection order (execute side),
and one in which only the second child fails yields the single-cause variant
(revert side). -/
theorem c2_error_cardinality_witness :
    (ConfigureShellProfile.executeWith
        { create_or_append_files := [sampleChild "/etc/bashrc", sampleChild "/etc/zshrc"],
          action_state := ActionState.Uncompleted }
        (fun i =>
          if i = 0 then TaskResult.joined (Except.error { message := "denied bashrc" })
          else TaskResult.joined (Except.error { message := "denied zshrc" }))
        [0, 1]).1
      = Except.error
          (ConfigureShellProfileError.MultipleCreateOrAppendFile
            [{ message := "denied bashrc" }, { message := "denied zshrc" }]) ∧
    (ConfigureShellProfile.revertWith
        { create_or_append_files := [sampleChild "/etc/bashrc", sampleChild "/etc/zshrc"],
          action_state := ActionState.Completed }
        (fun i =>
          if i = 0 then TaskResult.joined (Except.ok (sampleChild "/etc/bashrc"))
          else TaskResult.joined (Except.error { message := "denied zshrc" }))
        [0, 1]).1
      = Except.error
          (ConfigureShellProfileError.CreateOrAppendFile { message := "denied zshrc" }) :=
  ⟨((c2_error_cardinality _ _ _ (by rfl)).1 (by decide)).2
      { message := "denied bashrc" } { message := "denied zshrc" } [] (by rfl),
   ((c2_error_cardinality _ _ _ (by rfl)).2 (by decide)).1
      { message := "denied zshrc" } (by rfl)⟩

/-! ## C3 — composite state invariants -/

/-- C3: starting from a non-terminal state, a composite `execute()` returns
success only when the join loop collected zero child errors and no task
crashed, and then finalizes to `Completed`; on every error return (single,
aggregate, or join failure) the composite's state is `Progress`; symmetric
statement for `revert()` with terminal state `Uncompleted`. -/
theorem c3_composite_state (self : ConfigureShellProfile)
    (results : Nat → TaskResult) (order : List Nat) :
    (self.action_state ≠ ActionState.Completed →
      ((self.executeWith results order).1 = Except.ok () →
        (self.executeWith results order).2.action_state = ActionState.Completed ∧
        (joinLoop results order self.create_or_append_files []).errors = [] ∧
        (joinLoop results order self.create_or_append_files []).fatal = none) ∧
      (∀ e, (self.executeWith results order).1 = Except.error e →
        (self.executeWith results order).2.action_state = ActionState.Progress)) ∧
    (self.action_state ≠ ActionState.Uncompleted →
      ((self.revertWith results order).1 = Except.ok () →
        (self.revertWith results order).2.action_state = ActionState.Uncompleted ∧
        (joinLoop results order self.create_or_append_files []).errors = [] ∧
        (joinLoop results order self.create_or_append_files []).fatal = none) ∧
      (∀ e, (self.revertWith results order).1 = Except.error e →
        (self.revertWith results order).2.action_state = ActionState.Progress)) := by
  constructor
  · intro hstate
    rcases hfatal : (joinLoop results order self.create_or_append_files []).fatal with _ | je
    · rcases herr : (joinLoop results order self.create_or_append_files []).errors
        with _ | ⟨e1, _ | ⟨e2, rest⟩⟩ <;>
        simp [ConfigureShellProfile.executeWith, hstate, hfatal, herr]
    · simp [ConfigureShellProfile.executeWith, hstate, hfatal]
  · intro hstate
    rcases hfatal : (joinLoop results order self.create_or_append_files []).fatal with _ | je
    · rcases herr : (joinLoop results order self.create_or_append_files []).errors
        with _ | ⟨e1, _ | ⟨e2, rest⟩⟩ <;>
        simp [ConfigureShellProfile.revertWith, hstate, hfatal, herr]
    · simp [ConfigureShellProfile.revertWith, hstate, hfatal]

/-- Witness for C3: on a one-child composite whose child's task crashes, both
`execute` and `revert` leave the composite in `Progress`. -/
theorem c3_composite_state_witness :
    (ConfigureShellProfile.executeWith
        { create_or_append_files := [sampleChild "/etc/bashrc"],
          action_state := ActionState.Uncompleted }
        (fun _ => TaskResult.panicked { message := "crashed" }) [0]).2.action_state
      = ActionState.Progress ∧
    (ConfigureShellProfile.revertWith
        { create_or_append_files := [sampleChild "/etc/bashrc"],
          action_state := ActionState.Completed }
        (fun _ => TaskResult.panicked { message := "crashed" }) [0]).2.action_state
      = ActionState.Progress :=
  ⟨((c3_composite_state _ _ _).1 (by decide)).2
      (ConfigureShellProfileError.Join { message := "crashed" }) rfl,
   ((c3_composite_state _ _ _).2 (by decide)).2
      (ConfigureShellProfileError.Join { message := "crashed" }) rfl⟩

/-! ## C6 — index-preserving write-back under arbitrary completion order -/

/-- When every awaited task joins with an `Ok` result, the join loop collects
no errors, hits no join failure, and its file sequence is the fold that
writes each task's result back at the task's original index, in completion
order. -/
theorem joinLoop_all_ok (results : Nat → TaskResult) (g : Nat → CreateOrAppendFile) :
    ∀ (order : List Nat) (files : List CreateOrAppendFile)
      (errors : List CreateOrAppendFileError),
      (∀ i ∈ order, results i = TaskResult.joined (Except.ok (g i))) →
      joinLoop results order files errors
        = { files := order.foldl (fun fs i => fs.set i (g i)) files,
            errors := errors, fatal := none } := by
  intro order
  induction order with
  | nil =>
    intro files errors _
    rfl
  | cons idx rest ih =>
    intro files errors h
    have hidx : results idx = TaskResult.joined (Except.ok (g idx)) := h idx (by simp)
    simp only [joinLoop, hidx, List.foldl_cons]
    exact ih _ _ (fun i hi => h i (by simp [hi]))

/-- Folding index-tagged write-backs over any list of indices leaves the
length unchanged. -/
theorem length_foldl_set (g : Nat → CreateOrAppendFile) :
    ∀ (order : List Nat) (files : List CreateOrAppendFile),
      (order.foldl (fun fs i => fs.set i (g i)) files).length = files.length := by
  intro order
  induction order with
  | nil =>
    intro files
    rfl
  | cons idx rest ih =>
    intro files
    rw [List.foldl_cons, ih, List.length_set]

/-- Reading index `j` after folding the write-backs: the written value if `j`
was among the written indices, the original entry otherwise — independent of
the order of the writes. -/
theorem foldl_set_getElem? (g : Nat → CreateOrAppendFile) :
    ∀ (order : List Nat) (files : List CreateOrAppendFile) (j : Nat),
      j < files.length →
      (order.foldl (fun fs i => fs.set i (g i)) files)[j]?
        = if j ∈ order then some (g j) else files[j]? := by
  intro order
  induction order with
  | nil =>
    intro files j _
    simp
  | cons i rest ih =>
    intro files j hj
    have hj' : j < (files.set i (g i)).length := by
      rw [List.length_set]
      exact hj
    rw [List.foldl_cons, ih (files.set i (g i)) j hj']
    by_cases hmem : j ∈ rest
    · simp [hmem]
    · rcases eq_or_ne i j with heq | hne
      · subst heq
        simp [hmem, List.getElem?_set_eq_of_lt (g i) hj]
      · rw [List.getElem?_set_ne hne]
        have hji : j ≠ i := hne.symm
        simp [hmem, hji]

/-- The value the task for child index `i` hands back when each child's
operation is `childRun` of that child: used to name the all-success task
outcomes. -/
def okResultOf (childRun : CreateOrAppendFile → CreateOrAppendFile)
    (files : List CreateOrAppendFile) (i : Nat) : CreateOrAppendFile :=
  match files[i]? with
  | some f => childRun f
  | none => default

/-- C6: when the completion order is any permutation of the child indices and
every child's task joins successfully with the executed (resp. reverted)
version `childRun` of that child, `execute()` (resp. `revert()`) succeeds and
the resulting child at index `i` is `childRun` of the input child at index
`i`, for every `i` — regardless of the completion order. -/
theorem c6_order_preservation (self : ConfigureShellProfile)
    (results : Nat → TaskResult) (order : List Nat)
    (childRun : CreateOrAppendFile → CreateOrAppendFile)
    (hperm : order.Perm (List.range self.create_or_append_files.length))
    (hok : ∀ i f, self.create_or_append_files[i]? = some f →
        results i = TaskResult.joined (Except.ok (childRun f))) :
    (self.action_state ≠ ActionState.Completed →
      (self.executeWith results order).1 = Except.ok () ∧
      ∀ i, i < self.create_or_append_files.length →
        (self.executeWith results order).2.create_or_append_files[i]?
          = (self.create_or_append_files[i]?).map childRun) ∧
    (self.action_state ≠ ActionState.Uncompleted →
      (self.revertWith results order).1 = Except.ok () ∧
      ∀ i, i < self.create_or_append_files.length →
        (self.revertWith results order).2.create_or_append_files[i]?
          = (self.create_or_append_files[i]?).map childRun) := by
  have hmem : ∀ i, i ∈ order ↔ i < self.create_or_append_files.length := by
    intro i
    rw [hperm.mem_iff, List.mem_range]
  have hres : ∀ i ∈ order,
      results i
        = TaskResult.joined
            (Except.ok (okResultOf childRun self.create_or_append_files i)) := by
    intro i hi
    have hilt : i < self.create_or_append_files.length := (hmem i).1 hi
    have hf : self.create_or_append_files[i]? = some self.create_or_append_files[i] :=
      List.getElem?_eq_getElem hilt
    rw [hok i _ hf]
    simp [okResultOf, hf]
  have hjl : joinLoop results order self.create_or_append_files []
      = { files := order.foldl
            (fun fs i => fs.set i (okResultOf childRun self.create_or_append_files i))
            self.create_or_append_files,
          errors := [], fatal := none } :=
    joinLoop_all_ok results _ order self.create_or_append_files [] hres
  have hget : ∀ i, i < self.create_or_append_files.length →
      (order.foldl
          (fun fs i => fs.set i (okResultOf childRun self.create_or_append_files i))
          self.create_or_append_files)[i]?
        = (self.create_or_append_files[i]?).map childRun := by
    intro i hi
    rw [foldl_set_getElem? _ order self.create_or_append_files i hi]
    have hf : self.create_or_append_files[i]? = some self.create_or_append_files[i] :=
      List.getElem?_eq_getElem hi
    simp [(hmem i).2 hi, okResultOf, hf]
  constructor
  · intro hstate
    have hexec : self.executeWith results order
        = (Except.ok (),
           { create_or_append_files :=
               order.foldl
                 (fun fs i => fs.set i (okResultOf childRun self.create_or_append_files i))
                 self.create_or_append_files,
             action_state := ActionState.Completed }) := by
      simp [ConfigureShellProfile.executeWith, hstate, hjl]
    rw [hexec]
    exact ⟨rfl, fun i hi => hget i hi⟩
  · intro hstate
    have hrev : self.revertWith results order
        = (Except.ok (),
           { create_or_append_files :=
               order.foldl
                 (fun fs i => fs.set i (okResultOf childRun self.create_or_append_files i))
                 self.create_or_append_files,
             action_state := ActionState.Uncompleted }) := by
      simp [ConfigureShellProfile.revertWith, hstate, hjl]
    rw [hrev]
    exact ⟨rfl, fun i hi => hget i hi⟩

/-- Marks a child `Completed`: the concrete per-child operation used by the
C6 witness. -/
def markCompleted (f : CreateOrAppendFile) : CreateOrAppendFile :=
  { f with action_state := ActionState.Completed }

/-- The two-child sequence used by the C6 witness. -/
def sampleFiles : List CreateOrAppendFile :=
  [sampleChild "/etc/bashrc", sampleChild "/etc/zshrc"]

/-- All-success task outcomes over `sampleFiles`, used by the C6 witness. -/
def sampleResults (i : Nat) : TaskResult :=
  match sampleFiles[i]? with
  | some f => TaskResult.joined (Except.ok (markCompleted f))
  | none => TaskResult.panicked { message := "out of range" }

/-- Witness for C6 with completion order `[1, 0]`, the reverse of the spawn
order: both children land back at their own index. -/
theorem c6_order_preservation_witness :
    (ConfigureShellProfile.executeWith
        { create_or_append_files := sampleFiles,
          action_state := ActionState.Uncompleted } sampleResults [1, 0]).1
      = Except.ok () ∧
    (ConfigureShellProfile.executeWith
        { create_or_append_files := sampleFiles,
          action_state := ActionState.Uncompleted } sampleResults [1, 0]
        ).2.create_or_append_files[0]?
      = (sampleFiles[0]?).map markCompleted ∧
    (ConfigureShellProfile.executeWith
        { create_or_append_files := sampleFiles,
          action_state := ActionState.Uncompleted } sampleResults [1, 0]
        ).2.create_or_append_files[1]?
      = (sampleFiles[1]?).map markCompleted :=
  have h := c6_order_preservation
    { create_or_append_files := sampleFiles, action_state := ActionState.Uncompleted }
    sampleResults [1, 0] markCompleted (by decide)
    (by intro i f hf; simp [sampleResults, hf])
  ⟨(h.1 (by decide)).1, (h.1 (by decide)).2 0 (by decide), (h.1 (by decide)).2 1 (by decide)⟩

/-! ## C7 — plan filters profile targets on existence -/

/-- The child `ConfigureShellProfile::plan` builds for an existing profile
target path. -/
def plannedChild (target : String) : CreateOrAppendFile :=
  { path := target, user := none, group := none, mode := 0o0644, buf := profileBuf,
    action_state := ActionState.Uncompleted }

/-- The loop of `ConfigureShellProfile::plan` yields exactly one child per
existing target, in target order. -/
theorem planChildren_eq_filter (pathExists : String → Bool) :
    ∀ targets : List String,
      planChildren pathExists targets
        = Except.ok ((targets.filter pathExists).map plannedChild) := by
  intro targets
  induction targets with
  | nil => rfl
  | cons t rest ih =>
    by_cases ht : pathExists t
    · simp [planChildren, ht, CreateOrAppendFile.plan, ih, List.filter_cons, plannedChild]
    · simp [planChildren, ht, ih, List.filter_cons]

/-- C7: `ConfigureShellProfile::plan` produces one child per profile target
whose path exists on the host, in `PROFILE_TARGETS` order, silently omitting
(without error) every target whose path does not exist; in particular, on a
host where exactly `/etc/bashrc` and `/etc/zshrc` exist among the profile
targets, it returns `Ok` with exactly those 2 children. -/
theorem c7_plan_filters :
    (∀ pathExists : String → Bool,
      ConfigureShellProfile.plan pathExists
        = Except.ok
            { create_or_append_files := (PROFILE_TARGETS.filter pathExists).map plannedChild,
              action_state := ActionState.Uncompleted }) ∧
    ConfigureShellProfile.plan (fun t => t = "/etc/bashrc" || t = "/etc/zshrc")
      = Except.ok
          { create_or_append_files := [plannedChild "/etc/bashrc", plannedChild "/etc/zshrc"],
            action_state := ActionState.Uncompleted } := by
  have hall : ∀ pathExists : String → Bool,
      ConfigureShellProfile.plan pathExists
        = Except.ok
            { create_or_append_files := (PROFILE_TARGETS.filter pathExists).map plannedChild,
              action_state := ActionState.Uncompleted } := by
    intro pathExists
    simp [ConfigureShellProfile.plan, planChildren_eq_filter]
  refine ⟨hall, ?_⟩
  rw [hall]
  rfl

end NixInstaller
